import Mathlib

/-!
Verification development for the Telegram-bot core of the helpdesk
repository (`src/bot/bot.py`).  The Python module is shallowly embedded:
its global mutable dictionaries become explicit state arguments, epoch
times become integers, database rows become Lean structures, and each
handler becomes a pure function from its inputs and the relevant state to
the updated state together with the observable effects (messages sent,
rows written).  Line numbers in the doc comments refer to `src/bot/bot.py`.
-/

set_option maxHeartbeats 1000000

namespace Helpdesk

/-! Section 1: the notification deduplicator (`bot.py` 1263-1289). -/

/-- Entry of the per-chat deduplication cache `RECENT_MESSAGES_CACHE`
(bot.py 1266): a `(message_hash, timestamp)` pair. -/
structure DedupEntry where
  hashVal : Int
  ts : Int
deriving DecidableEq, Repr

/-- Constant `MAX_CACHE_SIZE_PER_CHAT` (bot.py 1267). -/
def MAX_CACHE_SIZE_PER_CHAT : Nat := 10

/-- Constant `DUPLICATE_THRESHOLD_SECONDS` (bot.py 1268). -/
def DUPLICATE_THRESHOLD_SECONDS : Int := 5

/-- Scan performed by `is_duplicate_message` (bot.py 1280-1282): entries are
examined newest first (`reversed(chat_cache)`) and the scan short-circuits on
the first entry whose hash equals the new message's hash and whose timestamp
is less than `DUPLICATE_THRESHOLD_SECONDS` seconds before the new one. -/
def dupScan (h ts : Int) (cache : List DedupEntry) : Option DedupEntry :=
  cache.reverse.find?
    (fun e => e.hashVal == h && decide (ts - e.ts < DUPLICATE_THRESHOLD_SECONDS))

/-- Embedding of `is_duplicate_message` (bot.py 1270-1289) acting on one
chat's cache.  Python's builtin `hash` is modelled by the explicit `hashFn`
argument (the code accepts hash collisions as a rare false-duplicate risk).
On a duplicate the cache is untouched; otherwise the new pair is appended and
the cache trimmed to its last `MAX_CACHE_SIZE_PER_CHAT` entries
(`chat_cache[-MAX_CACHE_SIZE_PER_CHAT:]`). -/
def is_duplicate_message (hashFn : String → Int) (cache : List DedupEntry)
    (text : String) (ts : Int) : Bool × List DedupEntry :=
  let h := hashFn text
  match dupScan h ts cache with
  | some _ => (true, cache)
  | none =>
      let c := cache ++ [⟨h, ts⟩]
      if c.length > MAX_CACHE_SIZE_PER_CHAT then
        (false, c.drop (c.length - MAX_CACHE_SIZE_PER_CHAT))
      else
        (false, c)

/-- Global dictionary `RECENT_MESSAGES_CACHE` (bot.py 1266), modelled as a
total function from chat ids to per-chat caches (an absent key reads as the
empty cache, matching `if chat_id not in RECENT_MESSAGES_CACHE: ... = []`). -/
abbrev RecentCache := String → List DedupEntry

/-- Embedding of `is_duplicate_message` acting on the global dictionary:
only the addressed chat's cache is consulted and updated. -/
def is_duplicate_message_global (hashFn : String → Int) (m : RecentCache)
    (chat text : String) (ts : Int) : Bool × RecentCache :=
  let r := is_duplicate_message hashFn (m chat) text ts
  (r.fst, fun x => if x = chat then r.snd else m x)

/-! Section 2: the notification rate limiter (`bot.py` 923-924, 1044-1072). -/

/-- Delivery outcome of the web-to-bot notification path for one event. -/
inductive SiteDelivery
  | pushNotification
  | liveForward
  | suppressed
deriving DecidableEq, Repr

/-- Rate-limiter state `LAST_NOTIFICATION` (bot.py 924), a dictionary from
`(chat_id, ticket_id)` keys to the epoch time of the last push, modelled as
a total function into `Option Int` (absent key reads `none`). -/
abbrev LastNotification := String × Nat → Option Int

/-- The empty `LAST_NOTIFICATION` dictionary (its initial value, bot.py 924). -/
def emptyLN : LastNotification := fun _ => none

/-- Embedding of the notification decision of `handle_new_message_from_site`
(bot.py 1050-1072), the stage reached by a web event that passed the
deduplicator.  `active` is `active_ticket_id` read from the chat's FSM data
(`none` when unset or cleared).  When it differs from the event's ticket the
limiter is consulted: `now - LAST_NOTIFICATION.get(key, 0) > 3600` pushes and
records `now`; otherwise the event is suppressed.  When it matches, the
content is forwarded (`display_last_10_messages`) and the dictionary is left
unchanged. -/
def notify_step (m : LastNotification) (chat : String) (ticket : Nat)
    (active : Option Nat) (now : Int) : SiteDelivery × LastNotification :=
  if active ≠ some ticket then
    if now - ((m (chat, ticket)).getD 0) > 3600 then
      (SiteDelivery.pushNotification,
       fun k => if k = (chat, ticket) then some now else m k)
    else
      (SiteDelivery.suppressed, m)
  else
    (SiteDelivery.liveForward, m)

/-- One web-originated new-message event, as seen by the limiter stage. -/
structure SiteEvent where
  chat : String
  ticket : Nat
  active : Option Nat
  now : Int
deriving DecidableEq, Repr

/-- Sequential processing of a list of web events through the limiter,
recording each event's delivery outcome. -/
def run_site_events (m : LastNotification) :
    List SiteEvent → List (SiteEvent × SiteDelivery)
  | [] => []
  | e :: rest =>
      let r := notify_step m e.chat e.ticket e.active e.now
      (e, r.fst) :: run_site_events r.snd rest

/-- Times of the push notifications emitted for a given `(chat, ticket)` key
in a processed event trace. -/
def pushTimes (k : String × Nat) : List (SiteEvent × SiteDelivery) → List Int
  | [] => []
  | (e, d) :: rest =>
      if (e.chat, e.ticket) = k ∧ d = SiteDelivery.pushNotification then
        e.now :: pushTimes k rest
      else pushTimes k rest

/-- Condition under which claim C1, read literally, predicts a push for key
`k` at time `now`: the stored last-push time is more than 3600 seconds old,
or no prior push is recorded at all. -/
def C1_claim_condition (m : LastNotification) (k : String × Nat) (now : Int) :
    Prop :=
  match m k with
  | some t => now - t > 3600
  | none => True

/-! Section 3: ticket selection and message replay (`bot.py` 896-1007). -/

/-- Row of the `Message` table as used by `display_last_10_messages`:
`id`, `ticket_id`, `created_at` (epoch seconds), sender and content. -/
structure MsgRec where
  id : Nat
  ticket_id : Nat
  created_at : Int
  sender_name : String
  content : Option String
deriving DecidableEq, Repr

/-- Row of the `Attachment` table: `message_id` is `none` for ticket-level
attachments; `onDisk` models the `os.path.exists(file_path)` check. -/
structure AttRec where
  id : Nat
  ticket_id : Nat
  message_id : Option Nat
  file_name : String
  is_image : Bool
  onDisk : Bool
deriving DecidableEq, Repr

/-- Observable sends produced while replaying a ticket's history.  A file is
sent through `send_photo` or `send_document` depending on `is_image`;
`captionMsg` records which message's rendered text was attached as the
caption (`text` in the code, set to `None` after the first delivered file). -/
inductive SendEvent
  | info (text : String)
  | messageText (msgId : Nat)
  | photoFile (attId : Nat) (captionMsg : Option Nat)
  | documentFile (attId : Nat) (captionMsg : Option Nat)
  | fileNotFound (attId : Nat)
  | ticketPhoto (attId : Nat)
  | ticketDocument (attId : Nat)
deriving DecidableEq, Repr

/-- Stable insertion into a list sorted by `created_at`, used to embed the
query's `order_by(Message.created_at)`. -/
def insertByCreated (m : MsgRec) : List MsgRec → List MsgRec
  | [] => [m]
  | x :: xs =>
      if m.created_at ≤ x.created_at then m :: x :: xs
      else x :: insertByCreated m xs

/-- Ascending stable sort by `created_at`, embedding the SQL
`order_by(Message.created_at)` (oldest first). -/
def sortByCreated : List MsgRec → List MsgRec
  | [] => []
  | x :: xs => insertByCreated x (sortByCreated xs)

/-- Delivery of one message's attachment list (bot.py 967-982): each file on
disk is sent as photo or document, with the message's rendered text as the
caption of the first file actually sent (`text = None` afterwards); a missing
file produces a `fileNotFound` notice and, because of the `continue`, leaves
the caption pending for the next file. -/
def renderAtts (msgId : Nat) (caption : Bool) : List AttRec → List SendEvent
  | [] => []
  | a :: rest =>
      if a.onDisk then
        (if a.is_image then
          SendEvent.photoFile a.id (if caption then some msgId else none)
         else
          SendEvent.documentFile a.id (if caption then some msgId else none))
        :: renderAtts msgId false rest
      else
        SendEvent.fileNotFound a.id :: renderAtts msgId caption rest

/-- Delivery of one replayed message (bot.py 962-988): its attachments (rows
of the attachment query with `message_id` equal to the message's id) are sent
inline, carrying the message text as caption; a message without attachments
is sent as plain text. -/
def renderMessage (atts : List AttRec) (m : MsgRec) : List SendEvent :=
  let msgAtts := atts.filter (fun a => a.message_id == some m.id)
  if msgAtts.isEmpty then [SendEvent.messageText m.id]
  else renderAtts m.id true msgAtts

/-- Delivery of one ticket-level attachment (bot.py 994-1007), sent with the
constant caption after all messages. -/
def renderTicketAtt (a : AttRec) : List SendEvent :=
  if a.onDisk then
    [if a.is_image then SendEvent.ticketPhoto a.id else SendEvent.ticketDocument a.id]
  else
    [SendEvent.fileNotFound a.id]

/-- Fixed preamble of the replay (bot.py 938-940): the clearing notice and
three dashes. -/
def replayHeader : List SendEvent :=
  SendEvent.info "Чат очищен. История выбранной заявки:"
    :: List.replicate 3 (SendEvent.info "---")

/-- Embedding of `display_last_10_messages` (bot.py 936-1007).  The message
query filters by ticket, orders by `created_at` ascending and applies
`limit(30)`, so the body replays the first 30 messages of the ascending
order; afterwards the ticket's attachments with `message_id IS NULL` are
sent. -/
def display_last_10_messages (ticketId : Nat) (msgs : List MsgRec)
    (atts : List AttRec) : List SendEvent :=
  let tmsgs := (sortByCreated (msgs.filter (fun m => m.ticket_id == ticketId))).take 30
  let body :=
    if tmsgs.isEmpty then [SendEvent.info "В этой заявке пока нет сообщений."]
    else tmsgs.flatMap (renderMessage atts)
  let ticketAtts :=
    atts.filter (fun a => a.ticket_id == ticketId && a.message_id.isNone)
  replayHeader ++ body ++ ticketAtts.flatMap renderTicketAtt

/-- Messages replayed by a send trace, by id: a plain text send replays its
message, and a file send whose caption carries a message's rendered text
replays that message. -/
def replayedMsgIds : List SendEvent → List Nat
  | [] => []
  | SendEvent.messageText i :: rest => i :: replayedMsgIds rest
  | SendEvent.photoFile _ (some i) :: rest => i :: replayedMsgIds rest
  | SendEvent.documentFile _ (some i) :: rest => i :: replayedMsgIds rest
  | _ :: rest => replayedMsgIds rest

/-- Attachment ids delivered by a send trace, in order of delivery. -/
def deliveredAttIds : List SendEvent → List Nat
  | [] => []
  | SendEvent.photoFile i _ :: rest => i :: deliveredAttIds rest
  | SendEvent.documentFile i _ :: rest => i :: deliveredAttIds rest
  | SendEvent.ticketPhoto i :: rest => i :: deliveredAttIds rest
  | SendEvent.ticketDocument i :: rest => i :: deliveredAttIds rest
  | _ :: rest => deliveredAttIds rest

/-- Follows the spec's words for claim C3: the most recent 30 messages of the
ticket, presented in chronological order (the last 30 of the ascending
order). -/
def spec_mostRecent30 (ticketId : Nat) (msgs : List MsgRec) : List MsgRec :=
  let sorted := sortByCreated (msgs.filter (fun m => m.ticket_id == ticketId))
  (sorted.reverse.take 30).reverse

/-! Section 4: the inactivity reaper `check_inactive_users`
(`bot.py` 1080-1124). -/

/-- Value of a session's stored `last_activity` field: absent (or the empty
string, equally falsy in `if active_ticket_id and last_activity:`), a
non-empty string `datetime.fromisoformat` rejects (the per-session
`ValueError`/`TypeError` handler logs and continues), or a parsed time. -/
inductive LastActivity
  | missing
  | unparseable
  | parsed (t : Int)
deriving DecidableEq, Repr

/-- FSM data of one chat session as inspected by the reaper. -/
structure BotSession where
  active_ticket_id : Option Nat
  last_activity : LastActivity
deriving DecidableEq, Repr

/-- Python truthiness of `active_ticket_id` in
`if active_ticket_id and last_activity:` - `None` and `0` are falsy. -/
def ticketTruthy : Option Nat → Bool
  | none => false
  | some n => n != 0

/-- Python truthiness of the stored `last_activity` string. -/
def laTruthy : LastActivity → Bool
  | LastActivity.missing => false
  | _ => true

/-- Per-session body of the sweep loop (bot.py 1092-1113): with a truthy
`active_ticket_id` and a parseable `last_activity` at least 6 hours
(21600 seconds, `total_seconds()/3600 >= 6`) before `now`, the ticket
binding is cleared and the chat notified (`true` in the second component);
otherwise the session is untouched.  In the program this loop is dead code -
see `check_inactive_users` below. -/
def sweepOne (now : Int) (s : BotSession) : BotSession × Bool :=
  if ticketTruthy s.active_ticket_id && laTruthy s.last_activity then
    match s.last_activity with
    | LastActivity.parsed t =>
        if now - t ≥ 21600 then
          ({ s with active_ticket_id := none }, true)
        else (s, false)
    | _ => (s, false)
  else (s, false)

/-- The dispatcher storage as the program actually has it: bot.py 8 imports
aiogram 3's `MemoryStorage` (`aiogram.fsm.storage.memory`), which keeps the
per-chat FSM records in its `storage` attribute, a dictionary from
`StorageKey` to records.  The class defines no `data` attribute - that was
the aiogram 2 layout. -/
structure MemoryStorage3 where
  storage : List (Nat × BotSession)
deriving DecidableEq, Repr

/-- Result of the probe `hasattr(dp.storage, 'data')` at bot.py 1089:
aiogram 3's `MemoryStorage` has no `data` attribute, so the probe is false
for every instance. -/
def hasattr_data (_st : MemoryStorage3) : Bool := false

/-- Embedding of one pass of `check_inactive_users` (bot.py 1085-1118) as it
runs against the program's aiogram 3 storage.  The pass is gated on
`hasattr(dp.storage, 'data') and dp.storage.data`; since the storage class
has no `data` attribute the guard fails on every instance, the pass logs the
warning at bot.py 1115 and returns having touched no session and notified no
chat.  The sweep body over `dp.storage.data` (bot.py 1092-1113, per session
`sweepOne`) sits in the unreachable branch. -/
def check_inactive_users (now : Int) (st : MemoryStorage3) :
    MemoryStorage3 × List Nat :=
  if hasattr_data st then
    (⟨st.storage.map (fun p => (p.fst, (sweepOne now p.snd).fst))⟩,
     (st.storage.filter (fun p => (sweepOne now p.snd).snd)).map Prod.fst)
  else
    (st, [])

/-! Section 5: FSM states and the command/callback router
(`bot.py` 46-68 and the `@dp.message`/`@dp.callback_query` decorators). -/

/-- Aiogram FSM states declared in bot.py 46-68 (`RegistrationStates`,
`TicketStates`, `TicketSelectStates`, `ActiveTicketStates`).  A session with
no state set (aiogram's `None`, the idle condition) is `Option.none` at use
sites. -/
inductive BotState
  | waiting_for_gdpr_consent
  | waiting_for_fullname
  | waiting_for_position
  | waiting_for_department
  | waiting_for_office
  | waiting_for_phone
  | waiting_for_email
  | waiting_for_category
  | waiting_for_title
  | waiting_for_description
  | waiting_for_priority
  | waiting_for_attachments
  | collecting_attachments
  | waiting_for_ticket_id
  | pagination_data
  | chatting
deriving DecidableEq, Repr

/-- Content of an inbound chat message, as far as the registered filters
discriminate it. -/
inductive MsgContent
  | text (s : String)
  | photo
  | document
  | video
  | audio
deriving DecidableEq, Repr

/-- Message handlers registered on the dispatcher, in registration order. -/
inductive MsgHandler
  | sendWelcome
  | processFullname
  | processPosition
  | processDepartment
  | processOffice
  | processPhone
  | processEmail
  | newTicket
  | processTicketTitle
  | processTicketDescription
  | handlePhoto
  | handleDocument
  | collectAttachmentsH
  | handleTextInAttachments
  | selectTicketCmd
  | showMyTickets
  | showHelp
  | showPdnPolicy
  | showProfile
deriving DecidableEq, Repr

/-- Callback-query handlers registered on the dispatcher, in registration
order. -/
inductive CbHandler
  | gdprConsent
  | categorySelection
  | finishAttachmentsCb
  | selectTicket
  | pagination
deriving DecidableEq, Repr

/-- Matches one character list against the start of another (used to embed
`F.data.startswith(...)` filters). -/
def leadMatch : List Char → List Char → Bool
  | [], _ => true
  | _ :: _, [] => false
  | a :: as, b :: bs => a == b && leadMatch as bs

/-- Aiogram `Command(cmd)` filter: a text message whose first token is the
slash command. -/
def isCommand (cmd : String) (c : MsgContent) : Bool :=
  match c with
  | MsgContent.text s => s == "/" ++ cmd || leadMatch ("/" ++ cmd ++ " ").data s.data
  | _ => false

/-- Filter `F.content_type.in_({"photo", "document", "video", "audio"})` of
`collect_attachments` (bot.py 715). -/
def mediaContent : MsgContent → Bool
  | MsgContent.photo => true
  | MsgContent.document => true
  | MsgContent.video => true
  | MsgContent.audio => true
  | _ => false

/-- Embedding of aiogram's message dispatch over the handlers of bot.py in
their registration order: the first registered handler whose filters match
the session state and content receives the update.  Command handlers carry no
state filter; the wizard handlers carry exactly a state filter;
`handle_photo`/`handle_document` (bot.py 654, 670) carry only a content
filter; `collect_attachments` (bot.py 715) carries state plus content type,
and `handle_text_in_attachments` (bot.py 782) state only. -/
def message_dispatch (st : Option BotState) (c : MsgContent) : Option MsgHandler :=
  if isCommand "start" c then some MsgHandler.sendWelcome
  else if st == some BotState.waiting_for_fullname then some MsgHandler.processFullname
  else if st == some BotState.waiting_for_position then some MsgHandler.processPosition
  else if st == some BotState.waiting_for_department then some MsgHandler.processDepartment
  else if st == some BotState.waiting_for_office then some MsgHandler.processOffice
  else if st == some BotState.waiting_for_phone then some MsgHandler.processPhone
  else if st == some BotState.waiting_for_email then some MsgHandler.processEmail
  else if isCommand "new_ticket" c then some MsgHandler.newTicket
  else if st == some BotState.waiting_for_title then some MsgHandler.processTicketTitle
  else if st == some BotState.waiting_for_description then some MsgHandler.processTicketDescription
  else if c == MsgContent.photo then some MsgHandler.handlePhoto
  else if c == MsgContent.document then some MsgHandler.handleDocument
  else if st == some BotState.collecting_attachments && mediaContent c then
    some MsgHandler.collectAttachmentsH
  else if st == some BotState.collecting_attachments then
    some MsgHandler.handleTextInAttachments
  else if isCommand "tickets" c then some MsgHandler.selectTicketCmd
  else if isCommand "my_tickets" c then some MsgHandler.showMyTickets
  else if isCommand "help" c then some MsgHandler.showHelp
  else if isCommand "pdn_policy" c then some MsgHandler.showPdnPolicy
  else if isCommand "profile" c then some MsgHandler.showProfile
  else none

/-- Embedding of aiogram's callback-query dispatch over the callback handlers
of bot.py in registration order (bot.py 421, 588, 790, 897, 1316).  None of
these registrations carries a state filter, so the session state argument is
not consulted. -/
def callback_dispatch (_st : Option BotState) (data : String) : Option CbHandler :=
  if leadMatch "gdpr_".data data.data then some CbHandler.gdprConsent
  else if leadMatch "category:".data data.data then some CbHandler.categorySelection
  else if data == "attachments_done" then some CbHandler.finishAttachmentsCb
  else if leadMatch "select_ticket:".data data.data then some CbHandler.selectTicket
  else if leadMatch "page:".data data.data then some CbHandler.pagination
  else none

/-- Modelled from the spec (claim C7): the session states in which each
callback payload family is expected - `gdpr_*` during consent, `category:*`
while awaiting the ticket category, `attachments_done` while collecting
attachments.  The spec ties `select_ticket:*` and `page:*` to its
`BrowsingTickets` state, which has no code-level FSM state, so they are
modelled conservatively as always expected. -/
def spec_expects (h : CbHandler) (st : Option BotState) : Bool :=
  match h with
  | CbHandler.gdprConsent => st == some BotState.waiting_for_gdpr_consent
  | CbHandler.categorySelection => st == some BotState.waiting_for_category
  | CbHandler.finishAttachmentsCb => st == some BotState.collecting_attachments
  | CbHandler.selectTicket => true
  | CbHandler.pagination => true

/-! Section 6: users, ticket creation and attachment collection
(`bot.py` 70-103, 711-841). -/

/-- Row of the `users` table as `src/models/user_models.py` maps it: the
profile's position, department and office exist only as the foreign keys
`position_id`, `department_id` and `office_id` (the ORM attributes
`position`/`department`/`office` are relationships with `back_populates`,
and the old string columns were dropped by
`migrations/add_position_office_relations.py`). -/
structure UserRec where
  chat_id : String
  full_name : String
  position_id : Option Nat
  department_id : Option Nat
  office_id : Option Nat
  phone : Option String
  email : Option String
  role : String
  privacy_consent : Bool
  is_confirmed : Bool
  is_active : Bool
deriving DecidableEq, Repr

/-- Embedding of `get_user_by_chat_id` (bot.py 71-72). -/
def get_user_by_chat_id (chat : String) (db : List UserRec) : Option UserRec :=
  db.find? (fun u => u.chat_id == chat)

/-- Embedding of `check_user_status` (bot.py 75-103): the user must exist, be
active and be confirmed; the first component is the overall verdict. -/
def check_user_status (chat : String) (db : List UserRec) : Bool × Option UserRec :=
  match get_user_by_chat_id chat db with
  | none => (false, none)
  | some u =>
      if !u.is_active then (false, some u)
      else if !u.is_confirmed then (false, some u)
      else (true, some u)

/-- Constant `MAX_ATTACHMENTS` (bot.py 712). -/
def MAX_ATTACHMENTS : Nat := 5

/-- Constant `MAX_FILE_SIZE = 5 * 1024 * 1024` (bot.py 713). -/
def MAX_FILE_SIZE : Nat := 5242880

/-- Pending attachment descriptor stored in the FSM data by
`collect_attachments` (bot.py 770-775). -/
structure PendingAttachment where
  file_id : String
  file_type : String
  file_name : String
  file_path : String
deriving DecidableEq, Repr

/-- Incoming file as extracted from the transport message (bot.py 723-749):
`file_size` is the size declared by Telegram, absent for some media;
`actual_size` is the file's true size on the wire, which the handler never
inspects (it is a ghost field recording what the code cannot see);
`download_ok` models whether `bot.download_file` succeeds. -/
structure IncomingFile where
  file_id : String
  file_type : String
  file_name : String
  file_size : Option Nat
  actual_size : Nat
  download_ok : Bool
deriving DecidableEq, Repr

/-- Replies `collect_attachments` can send. -/
inductive CollectReply
  | capReached
  | tooLarge
  | downloadFailed
  | attached (count : Nat)
  | limitNote
deriving DecidableEq, Repr

/-- Size guard `if file_size is not None and file_size >= MAX_FILE_SIZE`
(bot.py 751). -/
def declaredTooLarge (sz : Option Nat) : Bool :=
  match sz with
  | some n => decide (n ≥ MAX_FILE_SIZE)
  | none => false

/-- Draft of a ticket accumulated in the FSM data during the creation wizard
(`category_id`, `category_name`, `title`, `description`). -/
structure TicketDraft where
  category_id : Option Nat := none
  category_name : Option String := none
  title : Option String := none
  description : Option String := none
deriving DecidableEq, Repr

/-- Per-chat conversational session: aiogram state plus the FSM data fields
used by the ticket flow. -/
structure TicketSession where
  fsm : Option BotState := none
  draft : TicketDraft := {}
  attachments : List PendingAttachment := []
  active_ticket_id : Option Nat := none
deriving DecidableEq, Repr

/-- Embedding of `collect_attachments` (bot.py 716-780).  The cap is checked
first; then the declared-size guard; a failed download rejects the file; an
accepted file is appended to the pending list and confirmed, with the extra
limit notice once the cap is reached.  No branch changes the FSM state and
every rejecting branch leaves the whole session untouched. -/
def collect_attachments (sess : TicketSession) (f : IncomingFile) :
    TicketSession × List CollectReply :=
  if sess.attachments.length ≥ MAX_ATTACHMENTS then
    (sess, [CollectReply.capReached])
  else if declaredTooLarge f.file_size then
    (sess, [CollectReply.tooLarge])
  else if !f.download_ok then
    (sess, [CollectReply.downloadFailed])
  else
    let l := sess.attachments ++
      [⟨f.file_id, f.file_type, f.file_name, "uploads/" ++ f.file_name⟩]
    ({ sess with attachments := l },
     if l.length ≥ MAX_ATTACHMENTS then
       [CollectReply.attached l.length, CollectReply.limitNote]
     else
       [CollectReply.attached l.length])

/-- Token check of `handle_text_in_attachments` (bot.py 785):
`message.text.strip().lower() in {"готово", "done", "готов", "end",
"finish"}`.  Lean's `Char.toLower` lowers only ASCII, so the embedding is
faithful for the Latin tokens; Python additionally lowercases the Cyrillic
ones. -/
def isDoneToken (text : String) : Bool :=
  let t := (((text.data.dropWhile Char.isWhitespace).reverse.dropWhile
    Char.isWhitespace).reverse).map Char.toLower
  t == "готово".data || t == "done".data || t == "готов".data ||
    t == "end".data || t == "finish".data

/-- Row of the `Ticket` table as written by `finish_attachments`
(bot.py 807-816). -/
structure TicketRow where
  id : Nat
  title : Option String
  description : Option String
  category_id : Option Nat
  creator_chat_id : String
  status : String
  priority : String
deriving DecidableEq, Repr

/-- Row of the `Attachment` table as written by `finish_attachments`
(bot.py 822-829). -/
structure AttachmentRow where
  ticket_id : Nat
  file_name : String
  file_path : String
  file_type : String
deriving DecidableEq, Repr

/-- The ticket store owned by the external database; `nextId` models the
autoincrement primary key assigned on insert (read back by
`ticket_db.refresh(ticket)`). -/
structure TicketStore where
  tickets : List TicketRow
  attachments : List AttachmentRow
  nextId : Nat
deriving DecidableEq, Repr

/-- A single row write staged inside a database transaction. -/
inductive DbWrite
  | ticketInsert (t : TicketRow)
  | attachmentInsert (a : AttachmentRow)
deriving DecidableEq, Repr

/-- Application of one staged write to the store. -/
def applyWrite (st : TicketStore) : DbWrite → TicketStore
  | DbWrite.ticketInsert t =>
      { st with tickets := st.tickets ++ [t], nextId := st.nextId + 1 }
  | DbWrite.attachmentInsert a =>
      { st with attachments := st.attachments ++ [a] }

/-- The transactions issued by `finish_attachments` (bot.py 807-830): a first
`commit()` containing only the new ticket row, then a second `commit()`
containing all attachment rows.  This is the code's actual transaction
boundary structure - two separate commits, not one. -/
def finish_attachments_txns (sess : TicketSession) (chat : String)
    (newId : Nat) : List (List DbWrite) :=
  [[DbWrite.ticketInsert
      { id := newId, title := sess.draft.title,
        description := sess.draft.description,
        category_id := sess.draft.category_id, creator_chat_id := chat,
        status := "new", priority := "normal" }],
   sess.attachments.map (fun a =>
     DbWrite.attachmentInsert
       { ticket_id := newId, file_name := a.file_name,
         file_path := a.file_path, file_type := a.file_type })]

/-- Sequential commit of a list of transactions against the store.  The
boolean list gives each `commit()` call's outcome (missing entries default to
success); a failing commit rolls back exactly its own staged writes and
aborts the rest (the SQLAlchemy exception propagates), returning `false`. -/
def commitTxns (st : TicketStore) :
    List (List DbWrite) → List Bool → TicketStore × Bool
  | [], _ => (st, true)
  | txn :: rest, [] => commitTxns (txn.foldl applyWrite st) rest []
  | txn :: rest, ok :: oks =>
      if ok then commitTxns (txn.foldl applyWrite st) rest oks
      else (st, false)

/-- Replies `finish_attachments` can send. -/
inductive FinishReply
  | thanks
  | userError
  | created (ticketId : Nat) (attCount : Nat)
deriving DecidableEq, Repr

/-- The session after `state.clear()`. -/
def clearedTicketSession : TicketSession := {}

/-- Embedding of `finish_attachments` (bot.py 795-841).  The thanks reply is
sent before anything else; a failed user check aborts with an error reply;
otherwise the ticket row is committed, then the attachment rows are committed
(two transactions, `commit1Ok`/`commit2Ok` giving each commit's outcome).  On
success the confirmation reply carries the new ticket id and the attachment
count and the state is cleared; a failing commit escapes the handler
(`Except.error`), which has no `except` clause, before any further reply or
the `state.clear()`. -/
def finish_attachments (users : List UserRec) (store : TicketStore)
    (sess : TicketSession) (chat : String) (commit1Ok commit2Ok : Bool) :
    TicketStore × TicketSession × List FinishReply × Except Unit Unit :=
  if !(check_user_status chat users).fst then
    (store, sess, [FinishReply.thanks, FinishReply.userError], Except.ok ())
  else
    let newId := store.nextId
    let r := commitTxns store (finish_attachments_txns sess chat newId)
      [commit1Ok, commit2Ok]
    if r.snd then
      (r.fst, clearedTicketSession,
       [FinishReply.thanks,
        FinishReply.created newId sess.attachments.length],
       Except.ok ())
    else
      (r.fst, sess, [FinishReply.thanks], Except.error ())

/-- Embedding of `process_select_ticket` (bot.py 897-921): the callback's
ticket id is looked up among the tickets created by this chat; on success the
chat is answered and cleared (two dashes), the history is replayed, the
session's `active_ticket_id` is bound and the state set to `chatting`. -/
def process_select_ticket (users : List UserRec) (tickets : List TicketRow)
    (msgs : List MsgRec) (atts : List AttRec) (chat : String) (tid : Nat)
    (sess : TicketSession) : TicketSession × List SendEvent :=
  if !(check_user_status chat users).fst then (sess, [])
  else
    match tickets.find? (fun t => t.id == tid && t.creator_chat_id == chat) with
    | none => (sess, [])
    | some _ =>
        ({ sess with active_ticket_id := some tid, fsm := some BotState.chatting },
         SendEvent.info "Вы выбрали заявку." :: SendEvent.info "---"
           :: SendEvent.info "---" :: display_last_10_messages tid msgs atts)

/-! Section 7: the registration wizard (`bot.py` 382-549). -/

/-- FSM data accumulated by the registration wizard.  A `none` field was
never submitted (`data['...']` would raise `KeyError`); for phone and email
the stored value itself may be null (the skip token). -/
structure RegData where
  privacy_consent : Bool := false
  full_name : Option String := none
  position : Option String := none
  department : Option String := none
  office : Option String := none
  phone : Option String := none
  email : Option String := none
deriving DecidableEq, Repr

/-- Embedding of `process_fullname` (bot.py 441-450): every character must be
alphabetic or whitespace, otherwise the handler re-prompts without advancing
(Lean's `Char.isAlpha` covers the ASCII letters of Python's Unicode
`isalpha`). -/
def process_fullname (st : Option BotState) (d : RegData) (text : String) :
    Option BotState × RegData :=
  if text.data.all (fun c => c.isAlpha || c.isWhitespace) then
    (some BotState.waiting_for_position, { d with full_name := some text })
  else (st, d)

/-- Embedding of `process_position` (bot.py 452-457). -/
def process_position (d : RegData) (text : String) : Option BotState × RegData :=
  (some BotState.waiting_for_department, { d with position := some text })

/-- Embedding of `process_department` (bot.py 460-465). -/
def process_department (d : RegData) (text : String) : Option BotState × RegData :=
  (some BotState.waiting_for_office, { d with department := some text })

/-- Embedding of `process_office` (bot.py 468-478). -/
def process_office (d : RegData) (text : String) : Option BotState × RegData :=
  (some BotState.waiting_for_phone, { d with office := some text })

/-- Embedding of `process_phone` (bot.py 481-491): the literal token `-`
stores null. -/
def process_phone (d : RegData) (text : String) : Option BotState × RegData :=
  (some BotState.waiting_for_email,
   { d with phone := if text = "-" then none else some text })

/-- Reply sent by `process_email`.  Only the duplicate error is reachable:
the success reply (bot.py 536) sits after the always-raising completion, see
`process_email`. -/
inductive RegReply
  | duplicateError
  | registered
deriving DecidableEq, Repr

/-- Exceptions that can escape `process_email`, which has `try/finally` and
no `except` clause: a missing draft field (`KeyError` on `data['full_name']`
and friends), or the error that ends every non-duplicate completion - the
`User(position=<text>, department=<text>, office=<text>)` construction at
bot.py 518 assigns plain strings to relationship-mapped attributes (the
string columns no longer exist, see `UserRec`), which raises there and, were
it ever passed, would still fail in `user_db.commit()`; either way the
commit never completes. -/
inductive RegError
  | keyError
  | commitError
deriving DecidableEq, Repr

/-- Embedding of `process_email` (bot.py 494-549).  The literal token `-`
stores null; the store is queried for a user with this chat id or this email
(for a null email SQLAlchemy's `User.email == None` matches rows whose email
is null); a hit aborts to the idle state with the draft discarded and
nothing written.  Otherwise the handler builds
`User(full_name=data['full_name'], position=data['position'], ...)`:
`position`, `department` and `office` are ORM relationship attributes over
`position_id`/`department_id`/`office_id` (their string columns were dropped
by migration), so assigning the drafted strings raises and the completion
never commits a record, sends no reply and never clears the state - the
exception escapes regardless of whether the database itself could commit
(`_commitOk` is unreachable dead weight, kept for the handler's shape). -/
def process_email (users : List UserRec) (chat text : String) (d : RegData)
    (_commitOk : Bool) :
    Except RegError (List UserRec × Option BotState × RegData × RegReply) :=
  let email := if text = "-" then none else some text
  let d' := { d with email := email }
  if (users.find? (fun u => u.chat_id == chat || u.email == email)).isSome then
    Except.ok (users, none, {}, RegReply.duplicateError)
  else
    match d'.full_name, d'.position, d'.department, d'.office with
    | some _, some _, some _, some _ => Except.error RegError.commitError
    | _, _, _, _ => Except.error RegError.keyError

/-- One text message fed to the registration wizard through the state-gated
message handlers (any state outside the wizard leaves the session alone; the
command handlers are modelled by `message_dispatch`). -/
def reg_step (users : List UserRec) (chat : String)
    (sess : Option BotState × RegData) (text : String) (commitOk : Bool) :
    Except RegError (List UserRec × (Option BotState × RegData)) :=
  match sess.fst with
  | some BotState.waiting_for_fullname =>
      Except.ok (users, process_fullname sess.fst sess.snd text)
  | some BotState.waiting_for_position =>
      Except.ok (users, process_position sess.snd text)
  | some BotState.waiting_for_department =>
      Except.ok (users, process_department sess.snd text)
  | some BotState.waiting_for_office =>
      Except.ok (users, process_office sess.snd text)
  | some BotState.waiting_for_phone =>
      Except.ok (users, process_phone sess.snd text)
  | some BotState.waiting_for_email =>
      (process_email users chat text sess.snd commitOk).map
        (fun r => (r.fst, (r.snd.fst, r.snd.snd.fst)))
  | _ => Except.ok (users, sess)

/-- Session right after the GDPR consent callback agreed (bot.py 425-431):
consent recorded, state `waiting_for_fullname`, draft otherwise empty. -/
def postConsentSession : Option BotState × RegData :=
  (some BotState.waiting_for_fullname, { privacy_consent := true })

/-- Feeding of a list of text messages through `reg_step`; an escaping
exception aborts the conversation. -/
def registration_fold (chat : String) (commitOk : Bool) :
    List String → List UserRec × (Option BotState × RegData) →
    Except RegError (List UserRec × (Option BotState × RegData))
  | [], acc => Except.ok acc
  | text :: rest, acc =>
      match reg_step acc.fst chat acc.snd text commitOk with
      | Except.ok acc2 => registration_fold chat commitOk rest acc2
      | Except.error e => Except.error e

/-- A full registration conversation: the listed texts are fed in order
through `reg_step`, starting from the post-consent session. -/
def registration_run (users : List UserRec) (chat : String)
    (inputs : List String) (commitOk : Bool) :
    Except RegError (List UserRec × (Option BotState × RegData)) :=
  registration_fold chat commitOk inputs (users, postConsentSession)

/-! Section 8: helper lemmas. -/

theorem dupScan_isSome_iff (h ts : Int) (cache : List DedupEntry) :
    (dupScan h ts cache).isSome ↔
      ∃ e ∈ cache, e.hashVal = h ∧ ts - e.ts < DUPLICATE_THRESHOLD_SECONDS := by
  unfold dupScan
  rw [List.find?_isSome]
  constructor
  · rintro ⟨e, he, hp⟩
    refine ⟨e, List.mem_reverse.mp he, ?_⟩
    simpa [Bool.and_eq_true, beq_iff_eq, decide_eq_true_iff] using hp
  · rintro ⟨e, he, h1, h2⟩
    exact ⟨e, List.mem_reverse.mpr he, by simp [h1, h2]⟩

theorem is_duplicate_fst (hashFn : String → Int) (cache : List DedupEntry)
    (text : String) (ts : Int) :
    (is_duplicate_message hashFn cache text ts).fst =
      (dupScan (hashFn text) ts cache).isSome := by
  simp only [is_duplicate_message]
  cases hscan : dupScan (hashFn text) ts cache
  · simp only [hscan, Option.isSome_none]
    split <;> rfl
  · rfl

theorem is_duplicate_snd_of_scan_none (hashFn : String → Int)
    (cache : List DedupEntry) (text : String) (ts : Int)
    (hscan : dupScan (hashFn text) ts cache = none) :
    (is_duplicate_message hashFn cache text ts).snd =
      (cache ++ [(⟨hashFn text, ts⟩ : DedupEntry)]).drop
        (cache.length + 1 - MAX_CACHE_SIZE_PER_CHAT) := by
  simp only [is_duplicate_message, hscan]
  by_cases hlen :
      (cache ++ [(⟨hashFn text, ts⟩ : DedupEntry)]).length > MAX_CACHE_SIZE_PER_CHAT
  · rw [if_pos hlen]
    simp [List.length_append]
  · rw [if_neg hlen]
    simp only [List.length_append, List.length_cons, List.length_nil] at hlen
    have hz : cache.length + 1 - MAX_CACHE_SIZE_PER_CHAT = 0 := by omega
    simp [hz]

theorem is_duplicate_snd_of_scan_some (hashFn : String → Int)
    (cache : List DedupEntry) (text : String) (ts : Int) (e : DedupEntry)
    (hscan : dupScan (hashFn text) ts cache = some e) :
    (is_duplicate_message hashFn cache text ts).snd = cache := by
  simp only [is_duplicate_message, hscan]

theorem notify_step_cases (m : LastNotification) (chat : String) (ticket : Nat)
    (active : Option Nat) (now : Int) :
    (active = some ticket ∧
      notify_step m chat ticket active now = (SiteDelivery.liveForward, m)) ∨
    (active ≠ some ticket ∧ now - ((m (chat, ticket)).getD 0) > 3600 ∧
      notify_step m chat ticket active now =
        (SiteDelivery.pushNotification,
         fun k => if k = (chat, ticket) then some now else m k)) ∨
    (active ≠ some ticket ∧ ¬(now - ((m (chat, ticket)).getD 0) > 3600) ∧
      notify_step m chat ticket active now = (SiteDelivery.suppressed, m)) := by
  unfold notify_step
  by_cases h1 : active ≠ some ticket
  · rw [if_pos h1]
    by_cases h2 : now - ((m (chat, ticket)).getD 0) > 3600
    · rw [if_pos h2]
      exact Or.inr (Or.inl ⟨h1, h2, rfl⟩)
    · rw [if_neg h2]
      exact Or.inr (Or.inr ⟨h1, h2, rfl⟩)
  · rw [if_neg h1]
    exact Or.inl ⟨not_not.mp h1, rfl⟩

theorem chain_gap_forall : ∀ (l : List Int) (x : Int),
    List.Chain (fun a b => b - a > 3600) x l → ∀ z ∈ l, z - x > 3600 := by
  intro l
  induction l with
  | nil => intro x _ z hz; cases hz
  | cons y ys ih =>
      intro x hch z hz
      rw [List.chain_cons] at hch
      rcases List.mem_cons.mp hz with rfl | hz2
      · exact hch.1
      · have := ih y hch.2 z hz2
        omega

theorem chain_gap_pairwise : ∀ (l : List Int) (x : Int),
    List.Chain (fun a b => b - a > 3600) x l →
    List.Pairwise (fun a b => b - a > 3600) l := by
  intro l
  induction l with
  | nil => intro x _; exact List.Pairwise.nil
  | cons y ys ih =>
      intro x hch
      rw [List.chain_cons] at hch
      exact List.Pairwise.cons (chain_gap_forall ys y hch.2) (ih y hch.2)

theorem pushTimes_chain (k : String × Nat) :
    ∀ (events : List SiteEvent) (m : LastNotification),
      List.Chain (fun a b => b - a > 3600) ((m k).getD 0)
        (pushTimes k (run_site_events m events)) := by
  intro events
  induction events with
  | nil => intro m; exact List.Chain.nil
  | cons e rest ih =>
      intro m
      rcases notify_step_cases m e.chat e.ticket e.active e.now with
        ⟨_, heq⟩ | ⟨_, hgap, heq⟩ | ⟨_, _, heq⟩
      · have hrun : run_site_events m (e :: rest) =
            (e, SiteDelivery.liveForward) :: run_site_events m rest := by
          simp only [run_site_events, heq]
        rw [hrun, pushTimes]
        rw [if_neg (fun hc => absurd hc.2 (by decide))]
        exact ih m
      · have hrun : run_site_events m (e :: rest) =
            (e, SiteDelivery.pushNotification) ::
              run_site_events
                (fun k2 => if k2 = (e.chat, e.ticket) then some e.now else m k2)
                rest := by
          simp only [run_site_events, heq]
        rw [hrun, pushTimes]
        by_cases hk : (e.chat, e.ticket) = k
        · rw [if_pos ⟨hk, rfl⟩, List.chain_cons]
          constructor
          · rw [← hk]
            exact hgap
          · have h2 :=
              ih (fun k2 => if k2 = (e.chat, e.ticket) then some e.now else m k2)
            rw [if_pos hk.symm, Option.getD_some] at h2
            exact h2
        · rw [if_neg (fun hc => hk hc.1)]
          have h2 :=
            ih (fun k2 => if k2 = (e.chat, e.ticket) then some e.now else m k2)
          rw [if_neg (fun hc => hk hc.symm)] at h2
          exact h2
      · have hrun : run_site_events m (e :: rest) =
            (e, SiteDelivery.suppressed) :: run_site_events m rest := by
          simp only [run_site_events, heq]
        rw [hrun, pushTimes]
        rw [if_neg (fun hc => absurd hc.2 (by decide))]
        exact ih m

/-! Section 9: the claims. -/

/-- C1 (amended): for web events reaching the limiter stage, when the chat's
stored `active_ticket_id` equals the event's ticket the content is forwarded
unconditionally and `LAST_NOTIFICATION` is unchanged; when it differs, a push
is sent iff `now` minus the stored last-push time exceeds 3600 seconds, a
missing record being read as time 0 (`LAST_NOTIFICATION.get(key, 0)`) rather
than pushing unconditionally; the stored timestamp is set to `now` exactly
when a push is sent; and consequently, starting from the empty dictionary,
any two pushes for the same `(chatId, ticketId)` are more than 3600 seconds
apart - at most one push per rolling 3600-second window. -/
theorem C1_rate_limiter (m : LastNotification) (chat : String) (ticket : Nat)
    (active : Option Nat) (now : Int) (events : List SiteEvent)
    (k : String × Nat) :
    (active = some ticket →
      notify_step m chat ticket active now = (SiteDelivery.liveForward, m)) ∧
    (active ≠ some ticket →
      (((notify_step m chat ticket active now).fst = SiteDelivery.pushNotification) ↔
        now - ((m (chat, ticket)).getD 0) > 3600)) ∧
    ((notify_step m chat ticket active now).fst = SiteDelivery.pushNotification →
      ((notify_step m chat ticket active now).snd (chat, ticket) = some now ∧
       ∀ k2, k2 ≠ (chat, ticket) →
         (notify_step m chat ticket active now).snd k2 = m k2)) ∧
    ((notify_step m chat ticket active now).fst ≠ SiteDelivery.pushNotification →
      (notify_step m chat ticket active now).snd = m) ∧
    List.Pairwise (fun a b => b - a > 3600)
      (pushTimes k (run_site_events emptyLN events)) := by
  rcases notify_step_cases m chat ticket active now with
    ⟨hact, heq⟩ | ⟨hact, hgap, heq⟩ | ⟨hact, hgap, heq⟩
  · refine ⟨fun _ => heq, fun hne => absurd hact hne, ?_, ?_, ?_⟩
    · rw [heq]; intro hc; cases hc
    · rw [heq]; intro _; rfl
    · exact chain_gap_pairwise _ _ (pushTimes_chain k events emptyLN)
  · refine ⟨fun hc => absurd hc hact, fun _ => ?_, ?_, ?_, ?_⟩
    · rw [heq]; exact ⟨fun _ => hgap, fun _ => rfl⟩
    · rw [heq]
      exact fun _ => ⟨by simp, fun k2 hk2 => by simp [if_neg hk2]⟩
    · rw [heq]; intro hc; exact absurd rfl hc
    · exact chain_gap_pairwise _ _ (pushTimes_chain k events emptyLN)
  · refine ⟨fun hc => absurd hc hact, fun _ => ?_, ?_, ?_, ?_⟩
    · rw [heq]
      constructor
      · intro hc; cases hc
      · intro hc; exact absurd hc hgap
    · rw [heq]; intro hc; cases hc
    · rw [heq]; intro _; rfl
    · exact chain_gap_pairwise _ _ (pushTimes_chain k events emptyLN)

/-- C1 witness: with no prior record and `now = 4000 > 3600`, a push is sent
for a chat whose active ticket differs from the event's. -/
theorem C1_rate_limiter_witness :
    (notify_step emptyLN "42" 9 none 4000).fst = SiteDelivery.pushNotification :=
  ((C1_rate_limiter emptyLN "42" 9 none 4000 [] ("42", 9)).2.1
    (by decide)).mpr (by decide)

/-- C1 counterexample: with no prior push recorded and `now = 100`, the claim
as stated predicts a push (no prior record), but the code computes
`100 - LAST_NOTIFICATION.get(key, 0) = 100 - 0 = 100`, which does not exceed
3600, so no push is sent. -/
theorem C1_counterexample :
    ¬ (((notify_step emptyLN "42" 9 none 100).fst = SiteDelivery.pushNotification) ↔
        C1_claim_condition emptyLN ("42", 9) 100) := by
  intro h
  have hc : C1_claim_condition emptyLN ("42", 9) 100 := by
    simp [C1_claim_condition, emptyLN]
  have hres := h.mpr hc
  have hsup : (notify_step emptyLN "42" 9 none 100).fst = SiteDelivery.suppressed := by
    decide
  rw [hsup] at hres
  cases hres

/-- C2: per chat, `is_duplicate_message` keeps a history of at most 10
`(contentHash, timestamp)` pairs with the oldest evicted first; an incoming
message is a duplicate iff some entry of that chat's history has the same
hash and the new timestamp lies less than 5 seconds after it (the scan runs
newest first and short-circuits); non-duplicates are appended, duplicates are
not; other chats' histories are untouched; and two identical texts 2 seconds
apart yield one stored message while 10 seconds apart both are stored. -/
theorem C2_dedup_contract (hashFn : String → Int) (cache : List DedupEntry)
    (text : String) (ts : Int) (m : RecentCache) (chat chat2 : String)
    (hlen : cache.length ≤ MAX_CACHE_SIZE_PER_CHAT) :
    (((is_duplicate_message hashFn cache text ts).fst = true) ↔
      ∃ e ∈ cache, e.hashVal = hashFn text ∧
        ts - e.ts < DUPLICATE_THRESHOLD_SECONDS) ∧
    ((is_duplicate_message hashFn cache text ts).fst = true →
      (is_duplicate_message hashFn cache text ts).snd = cache) ∧
    ((is_duplicate_message hashFn cache text ts).fst = false →
      (is_duplicate_message hashFn cache text ts).snd =
        (cache ++ [(⟨hashFn text, ts⟩ : DedupEntry)]).drop
          (cache.length + 1 - MAX_CACHE_SIZE_PER_CHAT)) ∧
    (is_duplicate_message hashFn cache text ts).snd.length ≤
      MAX_CACHE_SIZE_PER_CHAT ∧
    ((is_duplicate_message_global hashFn m chat text ts).snd chat =
      (is_duplicate_message hashFn (m chat) text ts).snd) ∧
    (chat2 ≠ chat →
      (is_duplicate_message_global hashFn m chat text ts).snd chat2 = m chat2) ∧
    ((is_duplicate_message hashFn [] text ts).fst = false ∧
     (is_duplicate_message hashFn
       (is_duplicate_message hashFn [] text ts).snd text (ts + 2)).fst = true ∧
     (is_duplicate_message hashFn
       (is_duplicate_message hashFn [] text ts).snd text (ts + 10)).fst = false) := by
  have hfst := is_duplicate_fst hashFn cache text ts
  refine ⟨?_, ?_, ?_, ?_, ?_, ?_, ?_, ?_, ?_⟩
  · rw [hfst]
    exact dupScan_isSome_iff (hashFn text) ts cache
  · intro hdup
    rw [hfst] at hdup
    rcases Option.isSome_iff_exists.mp hdup with ⟨e, he⟩
    exact is_duplicate_snd_of_scan_some hashFn cache text ts e he
  · intro hnodup
    rw [hfst] at hnodup
    have hscan : dupScan (hashFn text) ts cache = none :=
      Option.not_isSome_iff_eq_none.mp (by rw [hnodup]; exact Bool.false_ne_true)
    exact is_duplicate_snd_of_scan_none hashFn cache text ts hscan
  · cases hscan : dupScan (hashFn text) ts cache with
    | some e =>
        rw [is_duplicate_snd_of_scan_some hashFn cache text ts e hscan]
        exact hlen
    | none =>
        rw [is_duplicate_snd_of_scan_none hashFn cache text ts hscan]
        rw [List.length_drop]
        simp only [List.length_append, List.length_cons, List.length_nil]
        unfold MAX_CACHE_SIZE_PER_CHAT at *
        omega
  · simp [is_duplicate_message_global]
  · intro hne
    simp [is_duplicate_message_global, if_neg hne]
  · have h1 : dupScan (hashFn text) ts [] = none := rfl
    rw [is_duplicate_fst, h1]
    rfl
  · have h0 : (is_duplicate_message hashFn [] text ts).snd =
        [(⟨hashFn text, ts⟩ : DedupEntry)] := by
      rw [is_duplicate_snd_of_scan_none hashFn [] text ts rfl]
      rfl
    rw [is_duplicate_fst, h0]
    refine (dupScan_isSome_iff (hashFn text) (ts + 2) _).mpr
      ⟨⟨hashFn text, ts⟩, List.mem_singleton_self _, rfl, ?_⟩
    show ts + 2 - ts < DUPLICATE_THRESHOLD_SECONDS
    unfold DUPLICATE_THRESHOLD_SECONDS
    omega
  · have h0 : (is_duplicate_message hashFn [] text ts).snd =
        [(⟨hashFn text, ts⟩ : DedupEntry)] := by
      rw [is_duplicate_snd_of_scan_none hashFn [] text ts rfl]
      rfl
    rw [is_duplicate_fst, h0]
    rw [Bool.eq_false_iff]
    intro hsome
    rcases (dupScan_isSome_iff (hashFn text) (ts + 10) _).mp hsome with
      ⟨e, he, _, hlt⟩
    rcases List.mem_singleton.mp he with rfl
    have hts : (⟨hashFn text, ts⟩ : DedupEntry).ts = ts := rfl
    rw [hts] at hlt
    unfold DUPLICATE_THRESHOLD_SECONDS at hlt
    omega

/-- C2 witness: concrete instance with an empty cache. -/
theorem C2_dedup_contract_witness :
    (is_duplicate_message (fun _ => 0) [] "hi" 0).fst = false ∧
    (is_duplicate_message (fun _ => 0)
      (is_duplicate_message (fun _ => 0) [] "hi" 0).snd "hi" 2).fst = true ∧
    (is_duplicate_message (fun _ => 0)
      (is_duplicate_message (fun _ => 0) [] "hi" 0).snd "hi" 10).fst = false :=
  (C2_dedup_contract (fun _ => 0) [] "hi" 0 (fun _ => []) "a" "b"
    (by decide)).2.2.2.2.2.2

theorem sweepOne_reaps (now : Int) (s : BotSession) (tid : Nat) (t : Int)
    (hact : s.active_ticket_id = some tid) (htid : tid ≠ 0)
    (hla : s.last_activity = LastActivity.parsed t) (hge : now - t ≥ 21600) :
    sweepOne now s = ({ s with active_ticket_id := none }, true) := by
  unfold sweepOne
  rw [hact, hla]
  have h1 : (ticketTruthy (some tid) && laTruthy (LastActivity.parsed t)) = true := by
    simp [ticketTruthy, laTruthy, htid]
  rw [if_pos h1]
  exact if_pos hge

theorem sweepOne_skips (now : Int) (s : BotSession)
    (h : s.active_ticket_id = none ∨
      ∀ t, s.last_activity = LastActivity.parsed t → now - t < 21600) :
    sweepOne now s = (s, false) := by
  unfold sweepOne
  rcases h with h | h
  · rw [h]
    simp [ticketTruthy]
  · by_cases hc : (ticketTruthy s.active_ticket_id && laTruthy s.last_activity) = true
    · rw [if_pos hc]
      cases hla : s.last_activity with
      | missing => rfl
      | unparseable => rfl
      | parsed t =>
          have hlt := h t hla
          exact if_neg (by omega)
    · rw [if_neg hc]

/-- C4: the inactivity reaper never fires.  The guard
`hasattr(dp.storage, 'data') and dp.storage.data` (bot.py 1089) is false on
every aiogram 3 `MemoryStorage` instance, so each sweep pass returns with
the storage untouched and no reset notification sent - in particular for a
storage holding a session with active ticket 3 and activity 7 hours in the
past, which the claim says must be cleared and notified; the unreachable
loop body (`sweepOne`) would indeed clear and notify exactly that session,
so the divergence is precisely the dead guard. -/
theorem C4_reaper_dead_gate (now : Int) (st : MemoryStorage3) :
    check_inactive_users now st = (st, []) ∧
    check_inactive_users 25200 ⟨[(7, ⟨some 3, LastActivity.parsed 0⟩)]⟩ =
      (⟨[(7, ⟨some 3, LastActivity.parsed 0⟩)]⟩, []) ∧
    sweepOne 25200 ⟨some 3, LastActivity.parsed 0⟩ =
      (⟨none, LastActivity.parsed 0⟩, true) := by
  refine ⟨rfl, rfl, by decide⟩

theorem commitTxns_two_ok (st : TicketStore) (t1 t2 : List DbWrite) :
    commitTxns st [t1, t2] [true, true] =
      (t2.foldl applyWrite (t1.foldl applyWrite st), true) := rfl

theorem commitTxns_first_fails (st : TicketStore) (t1 t2 : List DbWrite)
    (b : Bool) :
    commitTxns st [t1, t2] [false, b] = (st, false) := rfl

theorem commitTxns_second_fails (st : TicketStore) (t1 t2 : List DbWrite) :
    commitTxns st [t1, t2] [true, false] =
      (t1.foldl applyWrite st, false) := rfl

theorem foldl_attRows (st : TicketStore) (l : List PendingAttachment)
    (tid : Nat) :
    ((l.map (fun a => DbWrite.attachmentInsert
        { ticket_id := tid, file_name := a.file_name, file_path := a.file_path,
          file_type := a.file_type })).foldl applyWrite st) =
      { st with attachments := st.attachments ++ l.map (fun a =>
          ({ ticket_id := tid, file_name := a.file_name,
             file_path := a.file_path,
             file_type := a.file_type } : AttachmentRow)) } := by
  induction l generalizing st with
  | nil => simp
  | cons a rest ih =>
      simp only [List.map_cons, List.foldl_cons, applyWrite]
      rw [ih]
      simp

theorem finish_attachments_success (users : List UserRec) (store : TicketStore)
    (sess : TicketSession) (chat : String)
    (huser : (check_user_status chat users).fst = true) :
    finish_attachments users store sess chat true true =
      ({ tickets := store.tickets ++
            [{ id := store.nextId, title := sess.draft.title,
               description := sess.draft.description,
               category_id := sess.draft.category_id,
               creator_chat_id := chat, status := "new",
               priority := "normal" }],
         attachments := store.attachments ++
            sess.attachments.map (fun a =>
              ({ ticket_id := store.nextId, file_name := a.file_name,
                 file_path := a.file_path,
                 file_type := a.file_type } : AttachmentRow)),
         nextId := store.nextId + 1 },
       clearedTicketSession,
       [FinishReply.thanks,
        FinishReply.created store.nextId sess.attachments.length],
       Except.ok ()) := by
  unfold finish_attachments
  rw [huser]
  rw [if_neg (by decide)]
  simp only [finish_attachments_txns]
  rw [commitTxns_two_ok]
  simp only [List.foldl_cons, List.foldl_nil, applyWrite]
  rw [foldl_attRows]
  rw [if_pos trivial]

/-- C5: in the collecting-attachments state, a submitted file is rejected
with a re-prompt and the session - FSM state and pending list - is left
unchanged whenever the pending list already holds `MAX_ATTACHMENTS = 5`
entries or the declared file size is at least `MAX_FILE_SIZE = 5242880`
bytes; the handler never changes the FSM state; `done` is one of the finish
tokens; and finishing after exactly 5 accepted attachments commits one ticket
row together with exactly 5 attachment records pointing at it. -/
theorem C5_attachment_limits (sess : TicketSession) (f : IncomingFile)
    (users : List UserRec) (store : TicketStore) (chat : String) (n : Nat)
    (hstate : sess.fsm = some BotState.collecting_attachments) :
    (sess.attachments.length ≥ MAX_ATTACHMENTS →
      collect_attachments sess f = (sess, [CollectReply.capReached])) ∧
    (f.file_size = some n → n ≥ MAX_FILE_SIZE →
      sess.attachments.length < MAX_ATTACHMENTS →
      collect_attachments sess f = (sess, [CollectReply.tooLarge])) ∧
    ((collect_attachments sess f).fst.fsm =
      some BotState.collecting_attachments) ∧
    (isDoneToken "done" = true) ∧
    (sess.attachments.length = 5 →
      (check_user_status chat users).fst = true →
      ((finish_attachments users store sess chat true true).fst.tickets =
          store.tickets ++
            [{ id := store.nextId, title := sess.draft.title,
               description := sess.draft.description,
               category_id := sess.draft.category_id,
               creator_chat_id := chat, status := "new",
               priority := "normal" }] ∧
       (finish_attachments users store sess chat true true).fst.attachments =
          store.attachments ++
            sess.attachments.map (fun a =>
              ({ ticket_id := store.nextId, file_name := a.file_name,
                 file_path := a.file_path,
                 file_type := a.file_type } : AttachmentRow)) ∧
       (sess.attachments.map (fun a =>
          ({ ticket_id := store.nextId, file_name := a.file_name,
             file_path := a.file_path,
             file_type := a.file_type } : AttachmentRow))).length = 5 ∧
       (finish_attachments users store sess chat true true).snd.fst =
         clearedTicketSession)) := by
  refine ⟨?_, ?_, ?_, by decide, ?_⟩
  · intro hcap
    unfold collect_attachments
    rw [if_pos hcap]
  · intro hsz hge hlt
    unfold collect_attachments
    rw [if_neg (Nat.not_le.mpr hlt)]
    rw [if_pos (by rw [hsz]; simp [declaredTooLarge, hge])]
  · unfold collect_attachments
    by_cases h1 : sess.attachments.length ≥ MAX_ATTACHMENTS
    · rw [if_pos h1]
      exact hstate
    · rw [if_neg h1]
      by_cases h2 : declaredTooLarge f.file_size = true
      · rw [if_pos h2]
        exact hstate
      · rw [if_neg h2]
        by_cases h3 : (!f.download_ok) = true
        · rw [if_pos h3]
          exact hstate
        · rw [if_neg h3]
          exact hstate
  · intro hlen5 huser
    rw [finish_attachments_success users store sess chat huser]
    refine ⟨rfl, rfl, ?_, rfl⟩
    rw [List.length_map]
    exact hlen5

/-- C5 witness: a sixth file is rejected with the pending list and state
unchanged, and finishing with 5 accepted attachments writes one ticket and 5
attachment rows. -/
theorem C5_attachment_limits_witness :
    (collect_attachments
      { fsm := some BotState.collecting_attachments,
        attachments :=
          List.replicate 5 ⟨"f1", "photo", "p.jpg", "uploads/p.jpg"⟩ }
      { file_id := "f6", file_type := "photo", file_name := "q.jpg",
        file_size := some 1000, actual_size := 1000, download_ok := true } =
      ({ fsm := some BotState.collecting_attachments,
         attachments :=
           List.replicate 5 ⟨"f1", "photo", "p.jpg", "uploads/p.jpg"⟩ },
       [CollectReply.capReached])) ∧
    ((finish_attachments
        [{ chat_id := "42", full_name := "A", position_id := none,
           department_id := none, office_id := none, phone := none,
           email := none, role := "agent", privacy_consent := true,
           is_confirmed := true, is_active := true }]
        { tickets := [], attachments := [], nextId := 1 }
        { fsm := some BotState.collecting_attachments,
          attachments :=
            List.replicate 5 ⟨"f1", "photo", "p.jpg", "uploads/p.jpg"⟩ }
        "42" true true).fst.attachments.length = 5) :=
  have h := C5_attachment_limits
    { fsm := some BotState.collecting_attachments,
      attachments :=
        List.replicate 5 ⟨"f1", "photo", "p.jpg", "uploads/p.jpg"⟩ }
    { file_id := "f6", file_type := "photo", file_name := "q.jpg",
      file_size := some 1000, actual_size := 1000, download_ok := true }
    [{ chat_id := "42", full_name := "A", position_id := none,
       department_id := none, office_id := none, phone := none,
       email := none, role := "agent", privacy_consent := true,
       is_confirmed := true, is_active := true }]
    { tickets := [], attachments := [], nextId := 1 } "42" 1000 rfl
  ⟨h.1 (by decide),
   by
     have h2 := h.2.2.2.2 (by decide) (by decide)
     rw [h2.2.1]
     simp⟩

/-- C10: when the transport reports no file size (`file_size is None`), the
5242880-byte size check is skipped entirely: provided the 5-file cap is not
yet reached and the download succeeds, the file is accepted and appended to
the pending list whatever its actual size, and the handler's outcome is
independent of the actual size altogether. -/
theorem C10_missing_size_skips_check (sess : TicketSession) (f : IncomingFile)
    (hnone : f.file_size = none)
    (hcap : sess.attachments.length < MAX_ATTACHMENTS)
    (hdl : f.download_ok = true) :
    collect_attachments sess f =
      ({ sess with attachments := sess.attachments ++
          [⟨f.file_id, f.file_type, f.file_name, "uploads/" ++ f.file_name⟩] },
       if sess.attachments.length + 1 ≥ MAX_ATTACHMENTS then
         [CollectReply.attached (sess.attachments.length + 1),
          CollectReply.limitNote]
       else [CollectReply.attached (sess.attachments.length + 1)]) ∧
    (∀ k : Nat, collect_attachments sess { f with actual_size := k } =
      collect_attachments sess f) := by
  constructor
  · unfold collect_attachments
    rw [if_neg (Nat.not_le.mpr hcap), hnone]
    rw [if_neg (by simp [declaredTooLarge])]
    rw [hdl]
    rw [if_neg (by simp)]
    simp [List.length_append]
  · intro k
    rfl

/-- C10 witness: a 100 MB file with no declared size is accepted. -/
theorem C10_missing_size_skips_check_witness :
    collect_attachments { fsm := some BotState.collecting_attachments }
      { file_id := "f1", file_type := "document", file_name := "big.bin",
        file_size := none, actual_size := 104857600, download_ok := true } =
      ({ fsm := some BotState.collecting_attachments,
         attachments := [⟨"f1", "document", "big.bin", "uploads/big.bin"⟩] },
       [CollectReply.attached 1]) := by
  have h := (C10_missing_size_skips_check
    { fsm := some BotState.collecting_attachments }
    { file_id := "f1", file_type := "document", file_name := "big.bin",
      file_size := none, actual_size := 104857600, download_ok := true }
    rfl (by decide) rfl).1
  simpa using h

theorem insertByCreated_mem (m y : MsgRec) (l : List MsgRec) :
    y ∈ insertByCreated m l ↔ y = m ∨ y ∈ l := by
  induction l with
  | nil => simp [insertByCreated]
  | cons x xs ih =>
      unfold insertByCreated
      by_cases h : m.created_at ≤ x.created_at
      · rw [if_pos h]
        simp
      · rw [if_neg h]
        simp only [List.mem_cons, ih]
        tauto

theorem insertByCreated_pairwise (m : MsgRec) (l : List MsgRec)
    (h : l.Pairwise (fun a b => a.created_at ≤ b.created_at)) :
    (insertByCreated m l).Pairwise (fun a b => a.created_at ≤ b.created_at) := by
  induction l with
  | nil => simp [insertByCreated]
  | cons x xs ih =>
      rcases List.pairwise_cons.mp h with ⟨hx, hxs⟩
      unfold insertByCreated
      by_cases hle : m.created_at ≤ x.created_at
      · rw [if_pos hle]
        refine List.pairwise_cons.mpr ⟨?_, h⟩
        intro y hy
        rcases List.mem_cons.mp hy with rfl | hy2
        · exact hle
        · exact le_trans hle (hx y hy2)
      · rw [if_neg hle]
        refine List.pairwise_cons.mpr ⟨?_, ih hxs⟩
        intro y hy
        rcases (insertByCreated_mem m y xs).mp hy with rfl | hy2
        · omega
        · exact hx y hy2

theorem sortByCreated_pairwise (l : List MsgRec) :
    (sortByCreated l).Pairwise (fun a b => a.created_at ≤ b.created_at) := by
  induction l with
  | nil => exact List.Pairwise.nil
  | cons x xs ih => exact insertByCreated_pairwise x (sortByCreated xs) ih

theorem replayedMsgIds_append (a b : List SendEvent) :
    replayedMsgIds (a ++ b) = replayedMsgIds a ++ replayedMsgIds b := by
  induction a with
  | nil => rfl
  | cons x rest ih =>
      cases x with
      | info s => simpa [replayedMsgIds] using ih
      | messageText i => simpa [replayedMsgIds] using ih
      | photoFile i c => cases c <;> simpa [replayedMsgIds] using ih
      | documentFile i c => cases c <;> simpa [replayedMsgIds] using ih
      | fileNotFound i => simpa [replayedMsgIds] using ih
      | ticketPhoto i => simpa [replayedMsgIds] using ih
      | ticketDocument i => simpa [replayedMsgIds] using ih

theorem deliveredAttIds_append (a b : List SendEvent) :
    deliveredAttIds (a ++ b) = deliveredAttIds a ++ deliveredAttIds b := by
  induction a with
  | nil => rfl
  | cons x rest ih =>
      cases x with
      | info s => simpa [deliveredAttIds] using ih
      | messageText i => simpa [deliveredAttIds] using ih
      | photoFile i c => simpa [deliveredAttIds] using ih
      | documentFile i c => simpa [deliveredAttIds] using ih
      | fileNotFound i => simpa [deliveredAttIds] using ih
      | ticketPhoto i => simpa [deliveredAttIds] using ih
      | ticketDocument i => simpa [deliveredAttIds] using ih

theorem replayedMsgIds_renderAtts_false (msgId : Nat) (l : List AttRec)
    (h : ∀ a ∈ l, a.onDisk = true) :
    replayedMsgIds (renderAtts msgId false l) = [] := by
  induction l with
  | nil => rfl
  | cons a rest ih =>
      unfold renderAtts
      rw [if_pos (h a (List.mem_cons_self a rest))]
      have hrest := ih (fun x hx => h x (List.mem_cons_of_mem a hx))
      by_cases hi : a.is_image = true
      · rw [if_pos hi]
        simpa [replayedMsgIds] using hrest
      · rw [if_neg hi]
        simpa [replayedMsgIds] using hrest

theorem replayedMsgIds_renderAtts_true (msgId : Nat) (a : AttRec)
    (l : List AttRec) (h : ∀ x ∈ a :: l, x.onDisk = true) :
    replayedMsgIds (renderAtts msgId true (a :: l)) = [msgId] := by
  unfold renderAtts
  rw [if_pos (h a (List.mem_cons_self a l))]
  have hrest := replayedMsgIds_renderAtts_false msgId l
    (fun x hx => h x (List.mem_cons_of_mem a hx))
  by_cases hi : a.is_image = true
  · rw [if_pos hi]
    simpa [replayedMsgIds] using hrest
  · rw [if_neg hi]
    simpa [replayedMsgIds] using hrest

theorem replayedMsgIds_renderMessage (atts : List AttRec) (m : MsgRec)
    (h : ∀ a ∈ atts, a.onDisk = true) :
    replayedMsgIds (renderMessage atts m) = [m.id] := by
  unfold renderMessage
  cases hf : atts.filter (fun a => a.message_id == some m.id) with
  | nil => rfl
  | cons a rest =>
      have hsub : ∀ x ∈ a :: rest, x.onDisk = true := by
        intro x hx
        rw [← hf] at hx
        exact h x (List.mem_of_mem_filter hx)
      simp only [List.isEmpty_cons, if_neg]
      exact replayedMsgIds_renderAtts_true m.id a rest hsub

theorem deliveredAttIds_renderAtts (msgId : Nat) (c : Bool) (l : List AttRec)
    (h : ∀ a ∈ l, a.onDisk = true) :
    deliveredAttIds (renderAtts msgId c l) = l.map (fun a => a.id) := by
  induction l generalizing c with
  | nil => rfl
  | cons a rest ih =>
      unfold renderAtts
      rw [if_pos (h a (List.mem_cons_self a rest))]
      have hrest := ih false (fun x hx => h x (List.mem_cons_of_mem a hx))
      by_cases hi : a.is_image = true
      · rw [if_pos hi]
        simpa [deliveredAttIds] using hrest
      · rw [if_neg hi]
        simpa [deliveredAttIds] using hrest

theorem deliveredAttIds_renderMessage (atts : List AttRec) (m : MsgRec)
    (h : ∀ a ∈ atts, a.onDisk = true) :
    deliveredAttIds (renderMessage atts m) =
      (atts.filter (fun a => a.message_id == some m.id)).map (fun a => a.id) := by
  unfold renderMessage
  cases hf : atts.filter (fun a => a.message_id == some m.id) with
  | nil => rfl
  | cons a rest =>
      have hsub : ∀ x ∈ a :: rest, x.onDisk = true := by
        intro x hx
        rw [← hf] at hx
        exact h x (List.mem_of_mem_filter hx)
      simp only [List.isEmpty_cons, if_neg]
      exact deliveredAttIds_renderAtts m.id true (a :: rest) hsub

theorem deliveredAttIds_ticketAtts (l : List AttRec)
    (h : ∀ a ∈ l, a.onDisk = true) :
    deliveredAttIds (l.flatMap renderTicketAtt) = l.map (fun a => a.id) := by
  induction l with
  | nil => rfl
  | cons a rest ih =>
      have hrest := ih (fun x hx => h x (List.mem_cons_of_mem a hx))
      simp only [List.flatMap_cons]
      rw [deliveredAttIds_append]
      unfold renderTicketAtt
      rw [if_pos (h a (List.mem_cons_self a rest))]
      by_cases hi : a.is_image = true
      · rw [if_pos hi]
        simpa [deliveredAttIds] using hrest
      · rw [if_neg hi]
        simpa [deliveredAttIds] using hrest

theorem replayedMsgIds_ticketAtts (l : List AttRec) :
    replayedMsgIds (l.flatMap renderTicketAtt) = [] := by
  induction l with
  | nil => rfl
  | cons a rest ih =>
      simp only [List.flatMap_cons]
      rw [replayedMsgIds_append, ih]
      unfold renderTicketAtt
      by_cases hd : a.onDisk = true
      · rw [if_pos hd]
        by_cases hi : a.is_image = true
        · rw [if_pos hi]; rfl
        · rw [if_neg hi]; rfl
      · rw [if_neg hd]; rfl

theorem replayedMsgIds_body (atts : List AttRec) (l : List MsgRec)
    (h : ∀ a ∈ atts, a.onDisk = true) :
    replayedMsgIds (l.flatMap (renderMessage atts)) = l.map (fun m => m.id) := by
  induction l with
  | nil => rfl
  | cons m rest ih =>
      simp only [List.flatMap_cons]
      rw [replayedMsgIds_append, replayedMsgIds_renderMessage atts m h, ih]
      rfl

/-- C3 (amended): when a ticket's owner selects it via a `select_ticket`
callback, the session binds `active_ticket_id` and enters the chatting state,
and the bot replays the FIRST 30 messages of the ticket in ascending
`created_at` order - the oldest 30, not the most recent 30 (the query is
`order_by(created_at).limit(30)`) - delivering each message's attachments
inline with the message they belong to and, after the whole body, the
ticket-level attachments that have no associated message. -/
theorem C3_ticket_replay (ticketId : Nat) (msgs : List MsgRec)
    (atts : List AttRec) (users : List UserRec) (tickets : List TicketRow)
    (chat : String) (tid : Nat) (sess : TicketSession) (tk : TicketRow)
    (hdisk : ∀ a ∈ atts, a.onDisk = true)
    (hu : (check_user_status chat users).fst = true)
    (ht : tickets.find?
      (fun t => t.id == tid && t.creator_chat_id == chat) = some tk) :
    (process_select_ticket users tickets msgs atts chat tid sess =
      ({ sess with active_ticket_id := some tid, fsm := some BotState.chatting },
       SendEvent.info "Вы выбрали заявку." :: SendEvent.info "---"
         :: SendEvent.info "---" :: display_last_10_messages tid msgs atts)) ∧
    (replayedMsgIds (display_last_10_messages ticketId msgs atts) =
      ((sortByCreated (msgs.filter (fun m => m.ticket_id == ticketId))).take 30).map
        (fun m => m.id)) ∧
    (((sortByCreated (msgs.filter (fun m => m.ticket_id == ticketId))).take 30).Pairwise
      (fun a b => a.created_at ≤ b.created_at)) ∧
    (∀ m, deliveredAttIds (renderMessage atts m) =
      (atts.filter (fun a => a.message_id == some m.id)).map (fun a => a.id)) ∧
    (∃ body : List SendEvent,
      display_last_10_messages ticketId msgs atts =
        replayHeader ++ body ++
          (atts.filter
            (fun a => a.ticket_id == ticketId && a.message_id.isNone)).flatMap
            renderTicketAtt) ∧
    (deliveredAttIds
      ((atts.filter
        (fun a => a.ticket_id == ticketId && a.message_id.isNone)).flatMap
        renderTicketAtt) =
      (atts.filter (fun a => a.ticket_id == ticketId && a.message_id.isNone)).map
        (fun a => a.id)) := by
  refine ⟨?_, ?_, ?_, ?_, ?_, ?_⟩
  · unfold process_select_ticket
    rw [hu]
    rw [if_neg (by decide)]
    rw [ht]
  · simp only [display_last_10_messages]
    rw [replayedMsgIds_append, replayedMsgIds_append, replayedMsgIds_ticketAtts]
    have hh : replayedMsgIds replayHeader = [] := rfl
    rw [hh]
    cases htm :
        (sortByCreated (msgs.filter (fun m => m.ticket_id == ticketId))).take 30 with
    | nil => simp [replayedMsgIds]
    | cons m rest =>
        rw [if_neg (by simp)]
        rw [replayedMsgIds_body atts (m :: rest) hdisk]
        simp
  · exact List.Pairwise.sublist (List.take_sublist 30 _) (sortByCreated_pairwise _)
  · exact fun m => deliveredAttIds_renderMessage atts m hdisk
  · exact ⟨_, rfl⟩
  · exact deliveredAttIds_ticketAtts _
      (fun a ha => hdisk a (List.mem_of_mem_filter ha))

/-- C3 witness: an owner's selection binds the session to the ticket. -/
theorem C3_ticket_replay_witness :
    (process_select_ticket
      [{ chat_id := "42", full_name := "A", position_id := none,
         department_id := none, office_id := none, phone := none,
         email := none, role := "agent", privacy_consent := true,
         is_confirmed := true, is_active := true }]
      [{ id := 1, title := some "t", description := some "d",
         category_id := some 1, creator_chat_id := "42", status := "new",
         priority := "normal" }]
      [] [] "42" 1 {}).fst.active_ticket_id = some 1 := by
  have h := (C3_ticket_replay 1 [] []
    [{ chat_id := "42", full_name := "A", position_id := none,
       department_id := none, office_id := none, phone := none,
       email := none, role := "agent", privacy_consent := true,
       is_confirmed := true, is_active := true }]
    [{ id := 1, title := some "t", description := some "d",
       category_id := some 1, creator_chat_id := "42", status := "new",
       priority := "normal" }]
    "42" 1 {}
    { id := 1, title := some "t", description := some "d",
      category_id := some 1, creator_chat_id := "42", status := "new",
      priority := "normal" }
    (fun a ha => absurd ha (List.not_mem_nil a)) rfl rfl).1
  rw [h]

/-- C3 counterexample: for a ticket with 31 messages (ids 1..31, created in
that order), the code replays messages 1..30 - the oldest 30 - while the
claim's "most recent 30 in chronological order" would be messages 2..31. -/
theorem C3_counterexample :
    replayedMsgIds (display_last_10_messages 1
        ((List.range 31).map (fun i =>
          ({ id := i + 1, ticket_id := 1, created_at := (i : Int),
             sender_name := "s", content := none } : MsgRec))) []) ≠
      (spec_mostRecent30 1
        ((List.range 31).map (fun i =>
          ({ id := i + 1, ticket_id := 1, created_at := (i : Int),
             sender_name := "s", content := none } : MsgRec)))).map
        (fun m => m.id) := by
  decide

theorem find?_isSome_eq_any (l : List UserRec) (p : UserRec → Bool) :
    (l.find? p).isSome = l.any p := by
  by_cases h : (l.find? p).isSome = true
  · rw [h]
    symm
    rw [List.any_eq_true]
    rcases List.find?_isSome.mp h with ⟨x, hx, hp⟩
    exact ⟨x, hx, hp⟩
  · have h1 : (l.find? p).isSome = false := by
      cases hv : (l.find? p).isSome
      · rfl
      · exact absurd hv h
    rw [h1]
    symm
    rw [Bool.eq_false_iff]
    intro hc
    have h2 := List.find?_isSome.mpr (List.any_eq_true.mp hc)
    rw [h1] at h2
    cases h2

theorem registration_run_steps (users : List UserRec)
    (chat nm po de off ph em : String) (commitOk : Bool)
    (hname : nm.data.all (fun c => c.isAlpha || c.isWhitespace) = true) :
    registration_run users chat [nm, po, de, off, ph, em] commitOk =
      (process_email users chat em
        { privacy_consent := true, full_name := some nm, position := some po,
          department := some de, office := some off,
          phone := if ph = "-" then none else some ph, email := none }
        commitOk).map (fun r => (r.fst, (r.snd.fst, r.snd.snd.fst))) := by
  have h1 : process_fullname (some BotState.waiting_for_fullname)
      { privacy_consent := true } nm =
      (some BotState.waiting_for_position,
       { privacy_consent := true, full_name := some nm }) := by
    unfold process_fullname
    rw [if_pos hname]
  simp only [registration_run, registration_fold, reg_step, postConsentSession,
    h1, process_position, process_department, process_office, process_phone]
  cases hpe : process_email users chat em
      { privacy_consent := true, full_name := some nm, position := some po,
        department := some de, office := some off,
        phone := if ph = "-" then none else some ph, email := none }
      commitOk with
  | ok r => simp [hpe, Except.map]
  | error e => simp [hpe, Except.map]

/-- C6: the commit half of the claim never happens.  The duplicate check
still aborts cleanly to the idle state, but on every non-duplicate
completion the handler constructs `User(position=<text>, department=<text>,
office=<text>)` - attributes that the ORM maps as relationships over
`position_id`/`department_id`/`office_id`, their string columns having been
dropped by migration - so the completion raises before any record can be
written: for any store that holds no user with this chat identity or this
email, a full run of the registration wizard ends in the escaping exception,
commits nothing, sends nothing and leaves the state un-cleared, whatever the
database's own health. -/
theorem C6_registration_never_commits (users : List UserRec)
    (chat nm po de off ph em : String) (b : Bool)
    (hname : nm.data.all (fun c => c.isAlpha || c.isWhitespace) = true)
    (hnodup : users.any (fun u => u.chat_id == chat ||
        u.email == (if em = "-" then none else some em)) = false) :
    registration_run users chat [nm, po, de, off, ph, em] b =
      Except.error RegError.commitError := by
  rw [registration_run_steps users chat nm po de off ph em b hname]
  simp only [process_email]
  rw [if_neg (by
    rw [find?_isSome_eq_any, hnodup]
    exact Bool.false_ne_true)]
  rfl

/-- C6 witness: a complete, valid registration over the empty store ends in
the escaping exception with nothing committed, for both commit outcomes. -/
theorem C6_registration_never_commits_witness :
    registration_run [] "42" ["Ivan Ivanov", "agent", "IT", "301", "-",
        "ivan@x.ru"] true = Except.error RegError.commitError ∧
    registration_run [] "42" ["Ivan Ivanov", "agent", "IT", "301", "-",
        "ivan@x.ru"] false = Except.error RegError.commitError :=
  ⟨C6_registration_never_commits [] "42" "Ivan Ivanov" "agent" "IT" "301"
    "-" "ivan@x.ru" true (by decide) rfl,
   C6_registration_never_commits [] "42" "Ivan Ivanov" "agent" "IT" "301"
    "-" "ivan@x.ru" false (by decide) rfl⟩

/-- C7 counterexample: the `attachments_done` callback registration
(bot.py 790) filters only on the payload, so the press fires the
ticket-committing handler even from the idle session state, which does not
expect it - dispatch of callbacks is global, not state-gated as the claim
states. -/
theorem C7_counterexample :
    callback_dispatch none "attachments_done" =
      some CbHandler.finishAttachmentsCb ∧
    spec_expects CbHandler.finishAttachmentsCb none = false := by
  decide

theorem message_dispatch_gate (st : Option BotState) (c : MsgContent) :
    (message_dispatch st c = some MsgHandler.processEmail →
      st = some BotState.waiting_for_email) ∧
    (message_dispatch st c = some MsgHandler.processTicketTitle →
      st = some BotState.waiting_for_title) ∧
    (message_dispatch st c = some MsgHandler.processTicketDescription →
      st = some BotState.waiting_for_description) ∧
    (message_dispatch st c = some MsgHandler.collectAttachmentsH →
      st = some BotState.collecting_attachments) := by
  unfold message_dispatch
  by_cases h1 : isCommand "start" c = true
  · rw [if_pos h1]
    refine ⟨?_, ?_, ?_, ?_⟩ <;> exact fun h => absurd (Option.some.inj h) (by decide)
  rw [if_neg h1]
  by_cases h2 : (st == some BotState.waiting_for_fullname) = true
  · rw [if_pos h2]
    refine ⟨?_, ?_, ?_, ?_⟩ <;> exact fun h => absurd (Option.some.inj h) (by decide)
  rw [if_neg h2]
  by_cases h3 : (st == some BotState.waiting_for_position) = true
  · rw [if_pos h3]
    refine ⟨?_, ?_, ?_, ?_⟩ <;> exact fun h => absurd (Option.some.inj h) (by decide)
  rw [if_neg h3]
  by_cases h4 : (st == some BotState.waiting_for_department) = true
  · rw [if_pos h4]
    refine ⟨?_, ?_, ?_, ?_⟩ <;> exact fun h => absurd (Option.some.inj h) (by decide)
  rw [if_neg h4]
  by_cases h5 : (st == some BotState.waiting_for_office) = true
  · rw [if_pos h5]
    refine ⟨?_, ?_, ?_, ?_⟩ <;> exact fun h => absurd (Option.some.inj h) (by decide)
  rw [if_neg h5]
  by_cases h6 : (st == some BotState.waiting_for_phone) = true
  · rw [if_pos h6]
    refine ⟨?_, ?_, ?_, ?_⟩ <;> exact fun h => absurd (Option.some.inj h) (by decide)
  rw [if_neg h6]
  by_cases h7 : (st == some BotState.waiting_for_email) = true
  · rw [if_pos h7]
    refine ⟨fun _ => beq_iff_eq.mp h7, ?_, ?_, ?_⟩ <;>
      exact fun h => absurd (Option.some.inj h) (by decide)
  rw [if_neg h7]
  by_cases h8 : isCommand "new_ticket" c = true
  · rw [if_pos h8]
    refine ⟨?_, ?_, ?_, ?_⟩ <;> exact fun h => absurd (Option.some.inj h) (by decide)
  rw [if_neg h8]
  by_cases h9 : (st == some BotState.waiting_for_title) = true
  · rw [if_pos h9]
    refine ⟨?_, fun _ => beq_iff_eq.mp h9, ?_, ?_⟩ <;>
      exact fun h => absurd (Option.some.inj h) (by decide)
  rw [if_neg h9]
  by_cases h10 : (st == some BotState.waiting_for_description) = true
  · rw [if_pos h10]
    refine ⟨?_, ?_, fun _ => beq_iff_eq.mp h10, ?_⟩ <;>
      exact fun h => absurd (Option.some.inj h) (by decide)
  rw [if_neg h10]
  by_cases h11 : (c == MsgContent.photo) = true
  · rw [if_pos h11]
    refine ⟨?_, ?_, ?_, ?_⟩ <;> exact fun h => absurd (Option.some.inj h) (by decide)
  rw [if_neg h11]
  by_cases h12 : (c == MsgContent.document) = true
  · rw [if_pos h12]
    refine ⟨?_, ?_, ?_, ?_⟩ <;> exact fun h => absurd (Option.some.inj h) (by decide)
  rw [if_neg h12]
  by_cases h13 : (st == some BotState.collecting_attachments && mediaContent c) = true
  · rw [if_pos h13]
    have h13a : (st == some BotState.collecting_attachments) = true := by
      cases hb : (st == some BotState.collecting_attachments)
      · rw [hb] at h13
        cases h13
      · rfl
    refine ⟨?_, ?_, ?_, fun _ => beq_iff_eq.mp h13a⟩ <;>
      exact fun h => absurd (Option.some.inj h) (by decide)
  rw [if_neg h13]
  by_cases h14 : (st == some BotState.collecting_attachments) = true
  · rw [if_pos h14]
    refine ⟨?_, ?_, ?_, ?_⟩ <;> exact fun h => absurd (Option.some.inj h) (by decide)
  rw [if_neg h14]
  by_cases h15 : isCommand "tickets" c = true
  · rw [if_pos h15]
    refine ⟨?_, ?_, ?_, ?_⟩ <;> exact fun h => absurd (Option.some.inj h) (by decide)
  rw [if_neg h15]
  by_cases h16 : isCommand "my_tickets" c = true
  · rw [if_pos h16]
    refine ⟨?_, ?_, ?_, ?_⟩ <;> exact fun h => absurd (Option.some.inj h) (by decide)
  rw [if_neg h16]
  by_cases h17 : isCommand "help" c = true
  · rw [if_pos h17]
    refine ⟨?_, ?_, ?_, ?_⟩ <;> exact fun h => absurd (Option.some.inj h) (by decide)
  rw [if_neg h17]
  by_cases h18 : isCommand "pdn_policy" c = true
  · rw [if_pos h18]
    refine ⟨?_, ?_, ?_, ?_⟩ <;> exact fun h => absurd (Option.some.inj h) (by decide)
  rw [if_neg h18]
  by_cases h19 : isCommand "profile" c = true
  · rw [if_pos h19]
    refine ⟨?_, ?_, ?_, ?_⟩ <;> exact fun h => absurd (Option.some.inj h) (by decide)
  rw [if_neg h19]
  refine ⟨?_, ?_, ?_, ?_⟩ <;> exact fun h => Option.noConfusion h

/-- C7 (amended): message (text) handlers are state-gated - text entered
during the email step is routed to the start command handler or the email
handler, never to a ticket-creation handler, and the title, description,
email and attachment handlers fire only in their own states - but the
callback handlers (`gdpr_*`, `category:*`, `select_ticket:*`,
`attachments_done`, `page:*`) are dispatched on the payload alone,
independently of the session state. -/
theorem C7_dispatch_gating (st st2 : Option BotState) (data : String)
    (s : String) (c : MsgContent) :
    (callback_dispatch st data = callback_dispatch st2 data) ∧
    (message_dispatch (some BotState.waiting_for_email) (MsgContent.text s) =
        some MsgHandler.sendWelcome ∨
     message_dispatch (some BotState.waiting_for_email) (MsgContent.text s) =
        some MsgHandler.processEmail) ∧
    (message_dispatch st c = some MsgHandler.processEmail →
      st = some BotState.waiting_for_email) ∧
    (message_dispatch st c = some MsgHandler.processTicketTitle →
      st = some BotState.waiting_for_title) ∧
    (message_dispatch st c = some MsgHandler.processTicketDescription →
      st = some BotState.waiting_for_description) ∧
    (message_dispatch st c = some MsgHandler.collectAttachmentsH →
      st = some BotState.collecting_attachments) := by
  refine ⟨rfl, ?_, ?_, ?_, ?_, ?_⟩
  · unfold message_dispatch
    by_cases h : isCommand "start" (MsgContent.text s) = true
    · rw [if_pos h]
      exact Or.inl rfl
    · rw [if_neg h]
      rw [if_neg (by decide), if_neg (by decide), if_neg (by decide),
        if_neg (by decide), if_neg (by decide)]
      rw [if_pos (by decide)]
      exact Or.inr rfl
  · exact (message_dispatch_gate st c).1
  · exact (message_dispatch_gate st c).2.1
  · exact (message_dispatch_gate st c).2.2.1
  · exact (message_dispatch_gate st c).2.2.2

/-- C7 witness: text in the email state goes to the email handler, and the
callback routing of a category payload is the same in any two states. -/
theorem C7_dispatch_gating_witness :
    (callback_dispatch (some BotState.waiting_for_gdpr_consent) "category:2" =
      callback_dispatch (some BotState.collecting_attachments) "category:2") ∧
    (message_dispatch (some BotState.waiting_for_email)
        (MsgContent.text "hello") = some MsgHandler.sendWelcome ∨
     message_dispatch (some BotState.waiting_for_email)
        (MsgContent.text "hello") = some MsgHandler.processEmail) :=
  have h := C7_dispatch_gating (some BotState.waiting_for_gdpr_consent)
    (some BotState.collecting_attachments) "category:2" "hello"
    (MsgContent.text "hello")
  ⟨h.1, h.2.1⟩

/-- C8 counterexample: with one pending attachment, a failure of the second
commit leaves the store holding the new ticket but no attachment rows - the
outcome is neither "nothing persisted" nor "ticket together with every
attachment persisted", refuting the single-transaction atomicity claim. -/
theorem C8_counterexample :
    ¬ ((commitTxns { tickets := [], attachments := [], nextId := 1 }
          (finish_attachments_txns
            { fsm := some BotState.collecting_attachments,
              draft := { title := some "t" },
              attachments := [⟨"f1", "photo", "p.jpg", "uploads/p.jpg"⟩] }
            "42" 1) [true, false]).fst =
        { tickets := [], attachments := [], nextId := 1 } ∨
      (commitTxns { tickets := [], attachments := [], nextId := 1 }
          (finish_attachments_txns
            { fsm := some BotState.collecting_attachments,
              draft := { title := some "t" },
              attachments := [⟨"f1", "photo", "p.jpg", "uploads/p.jpg"⟩] }
            "42" 1) [true, false]).fst =
        (commitTxns { tickets := [], attachments := [], nextId := 1 }
          (finish_attachments_txns
            { fsm := some BotState.collecting_attachments,
              draft := { title := some "t" },
              attachments := [⟨"f1", "photo", "p.jpg", "uploads/p.jpg"⟩] }
            "42" 1) [true, true]).fst) := by
  decide

/-- C8 (amended): `finish_attachments` persists the new ticket and its
attachment records in TWO separate transactions - the first commit holds the
ticket row alone, the second all attachment rows.  When both succeed
everything is persisted; when the first fails nothing is; but when the second
fails the ticket row remains persisted with no attachment rows, so the write
is not atomic as a whole. -/
theorem C8_two_transactions (sess : TicketSession) (chat : String)
    (store : TicketStore) (b : Bool) :
    (finish_attachments_txns sess chat store.nextId).length = 2 ∧
    ((commitTxns store (finish_attachments_txns sess chat store.nextId)
        [true, true]).fst.tickets =
      store.tickets ++
        [{ id := store.nextId, title := sess.draft.title,
           description := sess.draft.description,
           category_id := sess.draft.category_id, creator_chat_id := chat,
           status := "new", priority := "normal" }]) ∧
    ((commitTxns store (finish_attachments_txns sess chat store.nextId)
        [true, true]).fst.attachments =
      store.attachments ++ sess.attachments.map (fun a =>
        ({ ticket_id := store.nextId, file_name := a.file_name,
           file_path := a.file_path,
           file_type := a.file_type } : AttachmentRow))) ∧
    (commitTxns store (finish_attachments_txns sess chat store.nextId)
        [false, b] = (store, false)) ∧
    ((commitTxns store (finish_attachments_txns sess chat store.nextId)
        [true, false]).fst.tickets =
      store.tickets ++
        [{ id := store.nextId, title := sess.draft.title,
           description := sess.draft.description,
           category_id := sess.draft.category_id, creator_chat_id := chat,
           status := "new", priority := "normal" }]) ∧
    ((commitTxns store (finish_attachments_txns sess chat store.nextId)
        [true, false]).fst.attachments = store.attachments) := by
  have hfull : (commitTxns store
      (finish_attachments_txns sess chat store.nextId) [true, true]).fst =
      { tickets := store.tickets ++
          [{ id := store.nextId, title := sess.draft.title,
             description := sess.draft.description,
             category_id := sess.draft.category_id, creator_chat_id := chat,
             status := "new", priority := "normal" }],
        attachments := store.attachments ++ sess.attachments.map (fun a =>
          ({ ticket_id := store.nextId, file_name := a.file_name,
             file_path := a.file_path,
             file_type := a.file_type } : AttachmentRow)),
        nextId := store.nextId + 1 } := by
    simp only [finish_attachments_txns]
    rw [commitTxns_two_ok]
    simp only [List.foldl_cons, List.foldl_nil, applyWrite]
    rw [foldl_attRows]
  refine ⟨rfl, ?_, ?_, rfl, rfl, rfl⟩
  · rw [hfull]
  · rw [hfull]

/-- C9 counterexample: with a valid user and the attachment commit failing,
`finish_attachments` has sent only the initial thanks reply - no generic
failure message - and the exception escapes the handler, refuting the claimed
failure semantics. -/
theorem C9_counterexample :
    finish_attachments
      [{ chat_id := "42", full_name := "A", position_id := none,
         department_id := none, office_id := none, phone := none,
         email := none, role := "agent", privacy_consent := true,
         is_confirmed := true, is_active := true }]
      { tickets := [], attachments := [], nextId := 1 }
      { fsm := some BotState.collecting_attachments,
        draft := { title := some "t" },
        attachments := [⟨"f1", "photo", "p.jpg", "uploads/p.jpg"⟩] }
      "42" true false =
      ({ tickets := [{ id := 1, title := some "t", description := none,
                       category_id := none, creator_chat_id := "42",
                       status := "new", priority := "normal" }],
         attachments := [], nextId := 2 },
       { fsm := some BotState.collecting_attachments,
         draft := { title := some "t" },
         attachments := [⟨"f1", "photo", "p.jpg", "uploads/p.jpg"⟩] },
       [FinishReply.thanks], Except.error ()) := rfl

/-- C9 (amended): when a flow-completing commit raises, the handlers - which
have `try/finally` but no `except` - send no failure message and the
exception escapes past the handler into the framework dispatcher: a failing
first commit in `finish_attachments` leaves the store and session unchanged
with only the thanks reply sent; a failing attachment commit leaves the
ticket persisted without attachments, again with only the thanks reply; and a
failing registration commit in `process_email` escapes with nothing sent. -/
theorem C9_commit_exception_escapes (users users2 : List UserRec)
    (store : TicketStore) (sess : TicketSession) (chat chat2 em : String)
    (pc : Bool) (fn po de off : String) (phv ev : Option String) (b : Bool)
    (huser : (check_user_status chat users).fst = true)
    (hnodup : users2.any (fun u => u.chat_id == chat2 ||
        u.email == (if em = "-" then none else some em)) = false) :
    (finish_attachments users store sess chat false b =
      (store, sess, [FinishReply.thanks], Except.error ())) ∧
    (finish_attachments users store sess chat true false =
      ({ store with
           tickets := store.tickets ++
             [{ id := store.nextId, title := sess.draft.title,
                description := sess.draft.description,
                category_id := sess.draft.category_id,
                creator_chat_id := chat, status := "new",
                priority := "normal" }],
           nextId := store.nextId + 1 },
       sess, [FinishReply.thanks], Except.error ())) ∧
    (process_email users2 chat2 em
      { privacy_consent := pc, full_name := some fn, position := some po,
        department := some de, office := some off, phone := phv, email := ev }
      false = Except.error RegError.commitError) := by
  refine ⟨?_, ?_, ?_⟩
  · unfold finish_attachments
    rw [huser]
    rfl
  · unfold finish_attachments
    rw [huser]
    rfl
  · simp only [process_email]
    rw [if_neg (by
      rw [find?_isSome_eq_any, hnodup]
      exact Bool.false_ne_true)]

/-- C9 witness: concrete failing first commit with an existing confirmed
user, and a failing registration commit over an empty store. -/
theorem C9_commit_exception_escapes_witness :
    (finish_attachments
      [{ chat_id := "42", full_name := "A", position_id := none,
         department_id := none, office_id := none, phone := none,
         email := none, role := "agent", privacy_consent := true,
         is_confirmed := true, is_active := true }]
      { tickets := [], attachments := [], nextId := 1 }
      { fsm := some BotState.collecting_attachments } "42" false true =
      ({ tickets := [], attachments := [], nextId := 1 },
       { fsm := some BotState.collecting_attachments },
       [FinishReply.thanks], Except.error ())) ∧
    (process_email [] "7" "e@x.ru"
      { privacy_consent := true, full_name := some "A", position := some "p",
        department := some "d", office := some "o", phone := none,
        email := none }
      false = Except.error RegError.commitError) :=
  have h := C9_commit_exception_escapes
    [{ chat_id := "42", full_name := "A", position_id := none,
       department_id := none, office_id := none, phone := none,
       email := none, role := "agent", privacy_consent := true,
       is_confirmed := true, is_active := true }]
    [] { tickets := [], attachments := [], nextId := 1 }
    { fsm := some BotState.collecting_attachments } "42" "7" "e@x.ru"
    true "A" "p" "d" "o" none none true (by decide) rfl
  ⟨h.1, h.2.2⟩

end Helpdesk
